import Mathlib

/-!
Verification of the gufo_ping asynchronous ICMP ping client against its
natural-language specification.

The development shallowly embeds the Python sources:

* `src/gufo/ping/socket.py` — the per-address-family probe multiplexer
  (`PingSocket`): constructor validation, probe submission (`ping`),
  the bulk read handler (`_on_read`) and the timeout sweep
  (`_check_timeouts`).
* `src/gufo/ping/ping.py` — the client facade (`Ping`): per-family socket
  dispatch (`__get_socket`), single probe (`ping`) and probe series
  (`iter_rtt`).
* `src/gufo/ping/cli.py` — the command line front-end's size gate.

The native (Rust) transport layer `gufo.ping._fast` is not part of the
Python sources.  Where a claim depends on it (ICMP checksum codec, the
RTT computation), the missing part is modelled from the specification;
such definitions carry a `Modelled from the spec:` doc comment.

The staged ping.py and socket.py are from different versions of the
library: the facade passes keyword arguments (`accelerated=` to the
`PingSocket` constructor, `request_id=`/`seq=` to `PingSocket.ping`)
that the staged socket.py does not declare.  Python rejects unexpected
keyword arguments with `TypeError` before the callee body runs; the
embedding models this call semantics explicitly (`checkKeywords` and
the `call...` wrappers), so the facade-level operations carry the
error paths the staged source actually takes.

Stateful code is embedded by explicit state passing: the event loop, the
kernel socket and the completion futures are replaced by oracles (the
result of `send`, the eventual value a future resolves to, the batch a
`recv` drain returns) and by explicit result lists (which future got
resolved with which value, in order).
-/

namespace GufoPing

/-- `NS = 1_000_000_000.0` from socket.py: nanoseconds per second.
Python floats are modelled as rationals. -/
def NS : ℚ := 1000000000

/-- `IPv4 = 4` from socket.py. -/
def IPv4 : Nat := 4

/-- `IPv6 = 6` from socket.py. -/
def IPv6 : Nat := 6

/-- `MAX_TTL = 255` from socket.py. -/
def MAX_TTL : Nat := 255

/-- `MAX_TOS = 255` from socket.py. -/
def MAX_TOS : Nat := 255

/-- Python exceptions relevant to the embedded code paths.
`osError` is Python's `OSError` (with its errno); `valueError` is
`ValueError`; `otherError` stands for any exception that is neither. -/
inductive PyErr where
  | osError (code : Nat)
  | valueError (msg : String)
  | otherError (msg : String)
  deriving DecidableEq, Repr

/-- Outcome of the native transport's `send` call, as observed by
`PingSocket.ping`: either a fresh session id, or a raised exception. -/
inductive SendResult where
  | ok (sid : Nat)
  | err (e : PyErr)
  deriving DecidableEq, Repr

/-- State of a `PingSocket` (socket.py) visible to the Python side.
`sessions` embeds `self.__sessions` (the pending map, keyed by session
id); the deadline attached to each entry is the conceptual
`send_timestamp_ns + timeout` of the pending probe (tracked by the
native layer; carried here so that timer claims can be stated).
`timeoutHandler` embeds `self._timeout_handler` as the absolute time the
armed timer fires at (`None` = unarmed). -/
structure PingSocket where
  size : Nat
  timeout : ℚ
  sessions : List (Nat × ℚ)
  timeoutHandler : Option ℚ
  deriving DecidableEq, Repr

/-- Helper for the constructor checks of socket.py: whether an optional
integer setting lies outside `[lo, hi]` (`False` when unset), mirroring
`x is not None and (x < lo or x > hi)`. -/
def badRange (v : Option Int) (lo hi : Int) : Bool :=
  match v with
  | none => false
  | some t => decide (t < lo) || decide (hi < t)

/-- Configuration accepted by `PingSocket.__init__` (socket.py).  Only
the settings the Python side inspects are kept; the native socket setup
calls (`bind`, `set_ttl`, ...) record these values and are not
re-modelled. -/
structure SocketConfig where
  afi : Nat := 4
  size : Nat := 64
  srcAddr : Option String := none
  ttl : Option Int := none
  tos : Option Int := none
  timeout : ℚ := 1
  sendBufferSize : Option Nat := none
  recvBufferSize : Option Nat := none
  coarse : Bool := false
  deriving DecidableEq, Repr

/-- Embeds `PingSocket.__init__` (socket.py lines 93-146): validates the
address family, then `ttl` against `1..MAX_TTL`, then `tos` against
`0..MAX_TOS`, raising `ValueError` (with the messages of the source) on
violation; on success the pending map starts empty and the timeout
handler unarmed.  Note the source does not validate `size` here: it is
only stored (`self.__size = size`). -/
def PingSocket.init (cfg : SocketConfig) : Except PyErr PingSocket :=
  if cfg.afi ≠ IPv4 ∧ cfg.afi ≠ IPv6 then
    .error (.valueError "afi must be 4 or 6")
  else if badRange cfg.ttl 1 (MAX_TTL : Int) then
    .error (.valueError "ttl must be in 0..255 range")
  else if badRange cfg.tos 0 (MAX_TOS : Int) then
    .error (.valueError "tos must be in 0..255 range")
  else
    .ok { size := cfg.size
          timeout := cfg.timeout
          sessions := []
          timeoutHandler := none }

/-- Embeds `PingSocket.ping` (socket.py lines 167-196).  The address
normalization and the native `self.__sock.send` are abstracted by the
`send : SendResult` oracle; the eventual value of the installed future
(set later by `_on_read`) by the `aw` oracle.  The source wraps only
the send in `try: ... except OSError: return None`, so every `OSError`
yields the outcome `None` with the state untouched, while any other
exception propagates; on a successful send a pending entry is recorded
and, if the timer is unarmed, it is armed `timeout` seconds hence
(`call_later(self.__timeout, ...)`).

The source of ping.py additionally forwards `request_id`/`seq` keyword
arguments; the socket.py in the sources does not consume them and they
are elided here (they parameterize the native packet build, abstracted
into `send`). -/
def PingSocket.ping (self : PingSocket) (now : ℚ) (send : SendResult)
    (aw : Nat → Option ℚ) : Except PyErr (Option ℚ) × PingSocket :=
  match send with
  | .err (.osError _) => (.ok none, self)
  | .err e => (.error e, self)
  | .ok sid =>
      let self1 := { self with sessions := self.sessions ++ [(sid, now + self.timeout)] }
      let self2 :=
        match self1.timeoutHandler with
        | some _ => self1
        | none => { self1 with timeoutHandler := some (now + self.timeout) }
      (.ok (aw sid), self2)

/-- Embeds the value stored into a resolved future by `_on_read`
(socket.py line 210): `float(rtt) / NS if rtt else None` — a truthy
(nonzero) `rtt` resolves to the RTT in seconds, a falsy (zero) `rtt`
resolves to `None` (the Lost outcome). -/
def rttToResult (rtt : Nat) : Option ℚ :=
  if rtt ≠ 0 then some ((rtt : ℚ) / NS) else none

/-- Embeds the loop body of `PingSocket._on_read` (socket.py lines
204-210) over the pending map: for each `(sid, rtt)` of the received
batch, `self.__sessions.pop(sid, None)` removes the entry (keys of a
Python dict are unique, so the removal is by key), and only when an
entry was present is its future resolved via `rttToResult`.  Returns
the remaining pending map and the list of resolutions `(sid, outcome)`
in batch order. -/
def onReadLoop : List (Nat × ℚ) → List (Nat × Nat) → List (Nat × ℚ) × List (Nat × Option ℚ)
  | sessions, [] => (sessions, [])
  | sessions, (sid, rtt) :: rest =>
      if sessions.any (fun e => e.1 == sid) then
        let r := onReadLoop (sessions.filter (fun e => e.1 != sid)) rest
        (r.1, (sid, rttToResult rtt) :: r.2)
      else
        onReadLoop sessions rest

/-- Embeds `PingSocket._on_read` (socket.py lines 198-210): the native
`self.__sock.recv()` is abstracted by the `seen` oracle (`none` embeds
the `None` early return, `some batch` the dict of sid → rtt). -/
def PingSocket.onRead (self : PingSocket) (seen : Option (List (Nat × Nat))) :
    PingSocket × List (Nat × Option ℚ) :=
  match seen with
  | none => (self, [])
  | some batch =>
      let r := onReadLoop self.sessions batch
      ({ self with sessions := r.1 }, r.2)

/-- Embeds `PingSocket._check_timeouts` (socket.py lines 212-217): the
handler clears `self._timeout_handler`, runs `self._on_read()`, and, if
pending sessions remain, calls `_start_timeout_checker`, which arms
`call_later(self.__timeout, ...)` — i.e. the timer fires one full
`timeout` after `now`. -/
def PingSocket.checkTimeouts (self : PingSocket) (now : ℚ)
    (seen : Option (List (Nat × Nat))) : PingSocket × List (Nat × Option ℚ) :=
  let self1 := { self with timeoutHandler := none }
  let r := self1.onRead seen
  if r.1.sessions.isEmpty then r
  else ({ r.1 with timeoutHandler := some (now + self.timeout) }, r.2)

/-- The nearest deadline among a pending map's entries (what the
specification asks the re-armed timer to target). -/
def nearestDeadline (sessions : List (Nat × ℚ)) : Option ℚ :=
  (sessions.map (fun e => e.2)).min?

/-- Modelled from the spec: the native layer computes
`rtt_ns = arrival_ts - send_timestamp_ns`, and "if `rtt_ns < 0` treat
as 0" (spec section 4.4, operation `on_readable`).  The computation lives in
the Rust transport (`gufo.ping._fast`), which is not among the Python
sources; it produces the `rtt` value delivered to `_on_read`. -/
def computeRtt (arrivalTs sendTs : Int) : Nat :=
  (max (arrivalTs - sendTs) 0).toNat

/-- Errno values by which Linux reports a missing route on send
(`ENETUNREACH = 101`, `EHOSTUNREACH = 113`); the "unreachable host"
condition of the specification. -/
def unreachableErrno (c : Nat) : Prop := c = 101 ∨ c = 113

instance (c : Nat) : Decidable (unreachableErrno c) := by
  unfold unreachableErrno; infer_instance

/-- State of the client facade `Ping` (ping.py).  The configuration
fields embed what `Ping.__init__` (lines 88-109) stores on `self`;
`srcAddr` is the address-family → source-address dict produced by
`_get_src_addr`; `sockets` embeds `self.__sockets`, the lazily filled
address-family → `PingSocket` dict. -/
structure Ping where
  size : Nat := 64
  srcAddr : List (Nat × String) := []
  ttl : Option Int := none
  tos : Option Int := none
  timeout : ℚ := 1
  sendBufferSize : Option Nat := none
  recvBufferSize : Option Nat := none
  coarse : Bool := false
  accelerated : Bool := true
  sockets : List (Nat × PingSocket) := []
  deriving DecidableEq, Repr

/-- Embeds `Ping._get_afi` (ping.py lines 111-125): the presence of a
colon in the address (Python's `":" in address`) selects IPv6, otherwise
IPv4. -/
def Ping.getAfi (address : String) : Nat :=
  if ':' ∈ address.toList then IPv6 else IPv4

/-- The `SocketConfig` arguments that `Ping.__get_socket` (ping.py lines
172-183) passes to the `PingSocket` constructor for a given address
family: the shared client configuration, with `ttl`/`tos` forced to
`None` for IPv6 (issues #4 and #2 of the source) and the source address
looked up in the per-family dict.  Note the call site passes one
further keyword, `accelerated=...`, which the constructor of the staged
socket.py does not accept; the call itself is embedded by
`callPingSocketInit`, which accounts for that keyword. -/
def Ping.socketConfig (self : Ping) (afi : Nat) : SocketConfig :=
  { afi := afi
    size := self.size
    srcAddr := (self.srcAddr.find? (fun e => e.1 == afi)).map (fun e => e.2)
    ttl := if afi = IPv4 then self.ttl else none
    tos := if afi = IPv4 then self.tos else none
    timeout := self.timeout
    sendBufferSize := self.sendBufferSize
    recvBufferSize := self.recvBufferSize
    coarse := self.coarse }

/-- Parameter names accepted by `PingSocket.__init__` in the staged
socket.py (lines 93-105). -/
def pingSocketInitParams : List String :=
  ["afi", "policy", "size", "src_addr", "ttl", "tos", "timeout",
   "send_buffer_size", "recv_buffer_size", "coarse"]

/-- Keyword-argument names that `Ping.__get_socket` (ping.py lines
172-183) passes to the `PingSocket(...)` constructor call. -/
def getSocketCallKeywords : List String :=
  ["afi", "size", "src_addr", "ttl", "tos", "timeout",
   "send_buffer_size", "recv_buffer_size", "coarse", "accelerated"]

/-- Parameter names accepted by `PingSocket.ping` in the staged
socket.py (lines 167-171), beyond `self`. -/
def pingSocketPingParams : List String := ["addr", "size"]

/-- Keyword-argument names that `Ping.ping` (ping.py line 223) and
`Ping.iter_rtt` (ping.py lines 261-263) pass to the `sock.ping(...)`
call (`addr` is passed positionally). -/
def sockPingCallKeywords : List String := ["size", "request_id", "seq"]

/-- Python call semantics: a keyword argument whose name is not among
the callee's parameter names raises `TypeError` before the callee body
runs (the first offending keyword, in argument order, is reported). -/
def checkKeywords (params keywords : List String) : Except PyErr Unit :=
  match keywords.find? (fun k => !(params.contains k)) with
  | some k => .error (.otherError ("TypeError: unexpected keyword argument " ++ k))
  | none => .ok ()

/-- Embeds the call `PingSocket(afi=..., ..., accelerated=...)` made by
`Ping.__get_socket` (ping.py lines 172-183): Python first matches the
keywords against the constructor's parameters — the staged
`PingSocket.__init__` has no `accelerated` parameter, so the call
raises `TypeError` — and only an accepted call would run the
constructor body on the given configuration. -/
def callPingSocketInit (cfg : SocketConfig) : Except PyErr PingSocket :=
  match checkKeywords pingSocketInitParams getSocketCallKeywords with
  | .error e => .error e
  | .ok _ => PingSocket.init cfg

/-- Embeds the call `sock.ping(addr, size=size, request_id=request_id,
seq=seq)` made by `Ping.ping` and `Ping.iter_rtt`: the staged
`PingSocket.ping` accepts only `(addr, size)`, so Python raises
`TypeError` for `request_id` before the method body runs; only an
accepted call would run `PingSocket.ping` itself. -/
def callPingSocketPing (sock : PingSocket) (now : ℚ) (send : SendResult)
    (aw : Nat → Option ℚ) : Except PyErr (Option ℚ) × PingSocket :=
  match checkKeywords pingSocketPingParams sockPingCallKeywords with
  | .error e => (.error e, sock)
  | .ok _ => sock.ping now send aw

/-- Embeds `Ping.__get_socket` (ping.py lines 156-185): look the address
family's socket up in `self.__sockets`; when absent, call the
`PingSocket` constructor (via `callPingSocketInit`, which embeds the
keyword matching of the staged call, including the rejected
`accelerated=` keyword) and store the result under the family.  Call
and construction errors propagate. -/
def Ping.getSocket (self : Ping) (address : String) :
    Except PyErr (PingSocket × Ping) :=
  match self.sockets.find? (fun e => e.1 == Ping.getAfi address) with
  | some e => .ok (e.2, self)
  | none =>
      match callPingSocketInit (self.socketConfig (Ping.getAfi address)) with
      | .error e => .error e
      | .ok sock =>
          .ok (sock,
               { self with sockets := self.sockets ++ [(Ping.getAfi address, sock)] })

/-- Writes a mutated `PingSocket` object back into the facade's dict
(Python mutates the shared object in place; the functional embedding
re-binds the key). -/
def Ping.setSocket (self : Ping) (afi : Nat) (sock : PingSocket) : Ping :=
  { self with
    sockets := self.sockets.map (fun e => if e.1 = afi then (afi, sock) else e) }

/-- Embeds `Ping.ping` (ping.py lines 201-223): fetch (or lazily create)
the per-family socket, then make the `sock.ping(addr, size=size,
request_id=request_id, seq=seq)` call (via `callPingSocketPing`, which
embeds the keyword matching of the staged call).  The request id and
starting sequence drawn by `__get_request_id` are random values only
handed to that call. -/
def Ping.ping (self : Ping) (addr : String) (now : ℚ) (send : SendResult)
    (aw : Nat → Option ℚ) : Except PyErr (Option ℚ) × Ping :=
  match self.getSocket addr with
  | .error e => (.error e, self)
  | .ok (sock, self1) =>
      let r := callPingSocketPing sock now send aw
      (r.1, self1.setSocket (Ping.getAfi addr) r.2)

/-- Embeds the first execution step of the async generator
`Ping.iter_rtt` (ping.py lines 254-263), run on the first `anext`: the
body fetches the per-family socket (`self.__get_socket(addr)`), draws
the request id and starting sequence, and makes the first
`sock.ping(addr, size=size, request_id=request_id, seq=seq)` call,
whose awaited value would be the first yielded outcome.  An exception
raised anywhere in this prefix propagates out of the generator before
anything is yielded. -/
def Ping.iterRttFirstStep (self : Ping) (addr : String) (now : ℚ)
    (send : SendResult) (aw : Nat → Option ℚ) : Except PyErr (Option ℚ) :=
  match self.getSocket addr with
  | .error e => .error e
  | .ok (sock, _) => (callPingSocketPing sock now send aw).1

/-- `MIN_SIZE = 64` from cli.py. -/
def MIN_SIZE : Nat := 64

/-- Observable outcome of the CLI front-end's argument gate: either the
process exits with a code after optionally printing a message
(`Cli.die`), or execution proceeds into the ping loop with the given
effective packet size. -/
inductive CliResult where
  | exit (code : Nat) (message : Option String)
  | run (size : Nat)
  deriving DecidableEq, Repr

/-- Embeds `Cli.die` (cli.py lines 51-55): print the message when
given, then `sys.exit(1)`. -/
def Cli.die (msg : Option String) : CliResult :=
  CliResult.exit 1 msg

/-- Embeds the size gate of `Cli.run` (cli.py lines 83-84) together with
the effective size computation of `Cli._run` (line 106,
`size = size or MIN_SIZE`): a given size below `MIN_SIZE` dies with the
source's message; otherwise the run proceeds. -/
def Cli.run (size : Option Int) : CliResult :=
  match size with
  | some s =>
      if s < (MIN_SIZE : Int) then
        Cli.die (some ("size must be more than " ++ toString MIN_SIZE))
      else
        CliResult.run s.toNat
  | none => CliResult.run MIN_SIZE

/-- Modelled from the spec: fold the carries of a 16-bit one's-complement
accumulation — "standard 16-bit one's-complement sum" (spec section 4.1,
Checksum).  The ICMP codec lives in the native layer
(`gufo.ping._fast`), not among the Python sources. -/
def foldCarry (s : Nat) : Nat :=
  if s ≤ 65535 then s
  else foldCarry (s % 65536 + s / 65536)
termination_by s
decreasing_by
  simp_wf
  omega

/-- Plain sum of the 16-bit words of an ICMP message. -/
def sum16 (ws : List Nat) : Nat := ws.sum

/-- Modelled from the spec: the ICMPv4 checksum — one's complement of
the one's-complement sum "over the ICMP message only, with the checksum
field zeroed during computation" (spec section 4.1). -/
def icmpChecksum (ws : List Nat) : Nat := 65535 - foldCarry (sum16 ws)

/-- Modelled from the spec: checksum validation on parse — the folded
one's-complement sum over the received message, checksum field
included, must be all-ones. -/
def icmpValid (msg : List Nat) : Bool := foldCarry (sum16 msg) == 65535

/-- Splits a value into `k` 16-bit words, most significant first. -/
def toWords16 (k : Nat) (v : Nat) : List Nat :=
  (List.range k).reverse.map (fun i => v / 65536 ^ i % 65536)

/-- Modelled from the spec: the payload marker layout
`[8-byte magic][8-byte send_timestamp_ns][4-byte session_id][zero fill]`
(spec section 6, Wire formats), as 16-bit words. -/
def payloadMarker (magic tsNs sid pad : Nat) : List Nat :=
  toWords16 4 magic ++ toWords16 4 tsNs ++ toWords16 2 sid ++ List.replicate pad 0

/-- Modelled from the spec: ICMPv4 echo request construction — type 8,
code 0 (first word `0x0800`), then the checksum computed over the
message with that field zeroed, then identifier, sequence and the
payload words (spec sections 4.1 and 6). -/
def buildEchoRequestV4 (ident seq : Nat) (payload : List Nat) : List Nat :=
  let zeroed := 0x0800 :: 0 :: ident :: seq :: payload
  0x0800 :: icmpChecksum zeroed :: ident :: seq :: payload

/-! Supporting lemmas. -/

theorem foldCarry_le (s : Nat) : foldCarry s ≤ 65535 := by
  induction s using foldCarry.induct with
  | case1 s h => rw [foldCarry]; simp [h]
  | case2 s h ih => rw [foldCarry]; simp only [h, if_false]; exact ih

theorem foldCarry_mod (s : Nat) : foldCarry s % 65535 = s % 65535 := by
  induction s using foldCarry.induct with
  | case1 s h => rw [foldCarry]; simp [h]
  | case2 s h ih =>
      rw [foldCarry]
      simp only [h, if_false]
      rw [ih]
      omega

theorem foldCarry_eq_zero (s : Nat) : foldCarry s = 0 ↔ s = 0 := by
  induction s using foldCarry.induct with
  | case1 s h => rw [foldCarry]; simp [h]
  | case2 s h ih =>
      rw [foldCarry]
      simp only [h, if_false]
      rw [ih]
      omega

theorem icmpValid_build (ident seq : Nat) (payload : List Nat) :
    icmpValid (buildEchoRequestV4 ident seq payload) = true := by
  unfold icmpValid buildEchoRequestV4 icmpChecksum
  have hsum : ∀ c : Nat,
      sum16 (0x0800 :: c :: ident :: seq :: payload)
        = c + sum16 (0x0800 :: 0 :: ident :: seq :: payload) := by
    intro c
    simp [sum16, List.sum_cons]
    omega
  rw [hsum]
  have h1 := foldCarry_le (sum16 (0x0800 :: 0 :: ident :: seq :: payload))
  have h3 := foldCarry_le
    (65535 - foldCarry (sum16 (0x0800 :: 0 :: ident :: seq :: payload))
      + sum16 (0x0800 :: 0 :: ident :: seq :: payload))
  have h2 := foldCarry_mod (sum16 (0x0800 :: 0 :: ident :: seq :: payload))
  have h4 := foldCarry_mod
    (65535 - foldCarry (sum16 (0x0800 :: 0 :: ident :: seq :: payload))
      + sum16 (0x0800 :: 0 :: ident :: seq :: payload))
  have h5 := foldCarry_eq_zero
    (65535 - foldCarry (sum16 (0x0800 :: 0 :: ident :: seq :: payload))
      + sum16 (0x0800 :: 0 :: ident :: seq :: payload))
  have h6 : sum16 (0x0800 :: 0 :: ident :: seq :: payload) = 0 →
      foldCarry (sum16 (0x0800 :: 0 :: ident :: seq :: payload)) = 0 := by
    intro h
    rw [h, foldCarry]
    simp
  rw [beq_iff_eq]
  omega

/-- Claim C8: for every packet sent (ICMPv4 echo request with the
specified payload-marker layout), the ICMP checksum computed at
construction — the 16-bit one's-complement sum over the ICMP message
with the checksum field zeroed — re-validates when the same packet is
parsed: the parse-side validation (the folded one's-complement sum over
the full message is all-ones) holds. -/
theorem checksum_roundtrip (ident seq magic tsNs sid pad : Nat) :
    icmpValid (buildEchoRequestV4 ident seq (payloadMarker magic tsNs sid pad)) = true :=
  icmpValid_build ident seq (payloadMarker magic tsNs sid pad)

/-- Claim C2: a probe whose send is refused by the OS with no route
(`OSError` with an unreachable errno) completes immediately with the
Lost outcome (`None`) instead of raising, and the pending-session map —
indeed the whole socket state — is unchanged: no pending entry is
inserted. -/
theorem unreachable_send_is_lost (self : PingSocket) (now : ℚ) (c : Nat)
    (aw : Nat → Option ℚ) (_h : unreachableErrno c) :
    PingSocket.ping self now (.err (.osError c)) aw = (.ok none, self) := rfl

/-- Witness for `unreachable_send_is_lost` at errno 101 (ENETUNREACH)
and a concrete socket state. -/
theorem unreachable_send_is_lost_witness :
    unreachableErrno 101 ∧
      PingSocket.ping
          { size := 64, timeout := 1, sessions := [], timeoutHandler := none }
          0 (.err (.osError 101)) (fun _ => none)
        = (.ok none,
           { size := 64, timeout := 1, sessions := [], timeoutHandler := none }) :=
  ⟨Or.inl rfl,
   unreachable_send_is_lost
     { size := 64, timeout := 1, sessions := [], timeoutHandler := none }
     0 101 (fun _ => none) (Or.inl rfl)⟩

/-- Claim C3 counterexample: a send failing with `OSError` errno 11
(EAGAIN/EWOULDBLOCK — an OS error that is not unreachable-route) does
NOT propagate to the awaiting caller: `PingSocket.ping` wraps the send
in `except OSError: return None`, so the outcome is `.ok none` (a Lost
outcome), refuting the claim that such errors surface verbatim. -/
theorem oserror_not_propagated_counterexample :
    (PingSocket.ping
        { size := 64, timeout := 1, sessions := [], timeoutHandler := none }
        0 (.err (.osError 11)) (fun _ => none)).1
      = Except.ok none
    ∧ (PingSocket.ping
        { size := 64, timeout := 1, sessions := [], timeoutHandler := none }
        0 (.err (.osError 11)) (fun _ => none)).1
      ≠ Except.error (PyErr.osError 11) := by
  constructor
  · rfl
  · simp [PingSocket.ping]

/-- Claim C3 (amended): every `OSError` raised by the send — whatever
its errno — is swallowed by `PingSocket.ping` and converted into the
Lost outcome (`None`) with the state unchanged; only exceptions that
are not `OSError` propagate verbatim to the awaiting caller. -/
theorem send_error_handling (self : PingSocket) (now : ℚ) (c : Nat)
    (msg : String) (aw : Nat → Option ℚ) :
    PingSocket.ping self now (.err (.osError c)) aw = (.ok none, self)
    ∧ PingSocket.ping self now (.err (.valueError msg)) aw
        = (.error (.valueError msg), self)
    ∧ PingSocket.ping self now (.err (.otherError msg)) aw
        = (.error (.otherError msg), self) :=
  ⟨rfl, rfl, rfl⟩

/-- Claim C9: invoking the CLI with a `-s SIZE` value below 64 exits
with code 1 after printing `size must be more than 64`; a size of 64 or
more passes the gate and the run proceeds with that size. -/
theorem cli_size_gate (s : Int) :
    (s < 64 → Cli.run (some s) = CliResult.exit 1 (some "size must be more than 64"))
    ∧ (64 ≤ s → Cli.run (some s) = CliResult.run s.toNat) := by
  constructor
  · intro h
    have hlt : s < ((MIN_SIZE : Nat) : Int) := by norm_num [MIN_SIZE]; exact h
    simp only [Cli.run, Cli.die, if_pos hlt]
    rfl
  · intro h
    have hge : ¬ s < ((MIN_SIZE : Nat) : Int) := by norm_num [MIN_SIZE]; omega
    simp only [Cli.run, if_neg hge]

/-- Witness for `cli_size_gate`: size 10 dies with code 1 and the
message; size 64 is accepted. -/
theorem cli_size_gate_witness :
    Cli.run (some 10) = CliResult.exit 1 (some "size must be more than 64")
    ∧ Cli.run (some 64) = CliResult.run 64 :=
  ⟨(cli_size_gate 10).1 (by norm_num), (cli_size_gate 64).2 (by norm_num)⟩

/-- Claim C4 counterexample: constructing a `PingSocket` with
`size = 10 < 64` (all other settings valid) SUCCEEDS — the constructor
of socket.py stores `size` without any validation — refuting the claim
that a size below 64 is rejected with a configuration error at
construction time. -/
theorem init_accepts_small_size_counterexample :
    PingSocket.init { size := 10 }
      = .ok { size := 10, timeout := 1, sessions := [], timeoutHandler := none } := rfl

/-- Claim C4 (amended): `PingSocket` construction succeeds exactly when
the address family is 4 or 6, `ttl` (when given) lies in `[1, 255]` and
`tos` (when given) lies in `[0, 255]`; violations raise `ValueError`
(the source's configuration error).  `size` is NOT validated at
construction.  In particular, constructing with `ttl = 0` fails at
construction time with the source's `ValueError` message. -/
theorem init_validation (cfg : SocketConfig) :
    (PingSocket.init cfg
        = .ok { size := cfg.size, timeout := cfg.timeout, sessions := [],
                timeoutHandler := none }
      ↔ (cfg.afi = IPv4 ∨ cfg.afi = IPv6)
          ∧ badRange cfg.ttl 1 (MAX_TTL : Int) = false
          ∧ badRange cfg.tos 0 (MAX_TOS : Int) = false)
    ∧ PingSocket.init { ttl := some 0 }
        = .error (.valueError "ttl must be in 0..255 range") := by
  refine ⟨?_, rfl⟩
  unfold PingSocket.init
  split_ifs with h1 h2 h3
  all_goals simp_all [IPv4, IPv6]
  all_goals tauto

/-- Witness for `init_validation`: a fully valid configuration with
`ttl = 64` is accepted, via the amended characterization. -/
theorem init_validation_witness :
    PingSocket.init { ttl := some 64, tos := some 0 }
      = .ok { size := 64, timeout := 1, sessions := [], timeoutHandler := none } :=
  (init_validation { ttl := some 64, tos := some 0 }).1.mpr
    ⟨Or.inl rfl, rfl, rfl⟩

/-- Claim C7 counterexample: a timeout tick on a socket with
`timeout = 1`, a single remaining pending entry whose deadline is `1/2`,
at `now = 2`, re-arms the timer at `now + timeout = 3` — NOT at the
nearest remaining deadline `1/2` — refuting the claim that the timer is
re-armed for the nearest remaining deadline. -/
theorem rearm_not_nearest_counterexample :
    (PingSocket.checkTimeouts
        { size := 64, timeout := 1, sessions := [(1, 1/2)], timeoutHandler := none }
        2 none).1.timeoutHandler = some 3
    ∧ nearestDeadline
        (PingSocket.checkTimeouts
          { size := 64, timeout := 1, sessions := [(1, 1/2)], timeoutHandler := none }
          2 none).1.sessions = some (1/2)
    ∧ (3 : ℚ) ≠ 1/2 := by
  refine ⟨?_, ?_, by norm_num⟩
  · show some ((2 : ℚ) + 1) = some 3
    norm_num
  · rfl

/-- The read handler does not touch the timeout-handler field. -/
theorem onRead_timeoutHandler (self : PingSocket)
    (seen : Option (List (Nat × Nat))) :
    (self.onRead seen).1.timeoutHandler = self.timeoutHandler := by
  cases seen <;> rfl

/-- Claim C7 (amended): after the expiration tick, when pending entries
remain the single timer is re-armed to fire one full `timeout` period
after the tick (`call_later(self.__timeout, ...)`), independent of the
entries' deadlines; when no entries remain it is left unarmed. -/
theorem rearm_full_timeout (self : PingSocket) (now : ℚ)
    (seen : Option (List (Nat × Nat))) :
    (self.checkTimeouts now seen).1.timeoutHandler
      = if (self.checkTimeouts now seen).1.sessions.isEmpty then none
        else some (now + self.timeout) := by
  unfold PingSocket.checkTimeouts
  cases h : (PingSocket.onRead { self with timeoutHandler := none } seen).1.sessions.isEmpty
  · simp [h]
  · simp [h, onRead_timeoutHandler]

/-- The spec-modelled RTT computation is plain truncated subtraction. -/
theorem computeRtt_eq (arrivalTs sendTs : Int) :
    computeRtt arrivalTs sendTs = (arrivalTs - sendTs).toNat := by
  unfold computeRtt
  rcases le_total (arrivalTs - sendTs) 0 with h | h
  · rw [max_eq_right h]
    omega
  · rw [max_eq_left h]

/-- Claim C5 counterexample: a reply for pending session 1 whose arrival
timestamp equals its send timestamp (RTT of exactly zero nanoseconds)
resolves the session's future with `None` — the Lost outcome — not with
`Rtt(0)`: socket.py line 210 reads `float(rtt) / NS if rtt else None`,
and a zero `rtt` is falsy. -/
theorem zero_rtt_reported_lost_counterexample :
    onReadLoop [(1, 0)] [(1, computeRtt 1000 1000)] = ([], [(1, none)])
    ∧ (onReadLoop [(1, 0)] [(1, computeRtt 1000 1000)]).2 ≠ [(1, some 0)] := by
  constructor
  · rfl
  · intro hx
    simp [onReadLoop, computeRtt, rttToResult] at hx

/-- Claim C5 (amended): for a reply matched to a pending entry, the
native layer computes `rtt_ns = arrival_ts - send_timestamp_ns` clamped
below at 0; the read handler removes the entry and resolves its future
with `rtt_ns / NS` seconds when `rtt_ns` is nonzero, and with `None`
(the Lost outcome, whose transport encoding is a zero `rtt`) when
`rtt_ns` is zero — so an RTT of exactly zero nanoseconds is reported as
Lost, not as `Rtt(0)`. -/
theorem matched_reply_rtt (sessions : List (Nat × ℚ)) (sid : Nat) (d : ℚ)
    (arrivalTs sendTs : Int) (h : (sid, d) ∈ sessions) :
    (onReadLoop sessions [(sid, computeRtt arrivalTs sendTs)]).2
      = [(sid, if sendTs < arrivalTs
               then some ((computeRtt arrivalTs sendTs : ℚ) / NS)
               else none)] := by
  have hany : sessions.any (fun e => e.1 == sid) = true := by
    rw [List.any_eq_true]
    exact ⟨(sid, d), h, by simp⟩
  unfold onReadLoop
  rw [if_pos hany]
  unfold onReadLoop
  simp only [rttToResult, computeRtt_eq]
  rcases lt_or_le sendTs arrivalTs with hlt | hle
  · rw [if_pos (by omega), if_pos hlt]
  · rw [if_neg (by omega), if_neg (by omega)]

/-- Witness for `matched_reply_rtt`: session 1 pending with deadline 5;
a reply with `arrival = send` resolves it as Lost, per the amended
claim. -/
theorem matched_reply_rtt_witness :
    ((1 : Nat), (5 : ℚ)) ∈ [((1 : Nat), (5 : ℚ))]
    ∧ (onReadLoop [(1, 5)] [(1, computeRtt 7 7)]).2
        = [(1, if (7 : Int) < 7 then some ((computeRtt 7 7 : ℚ) / NS) else none)] :=
  ⟨List.mem_singleton.mpr rfl,
   matched_reply_rtt [(1, 5)] 1 5 7 7 (List.mem_singleton.mpr rfl)⟩

/-- The constructor call made by `Ping.__get_socket` always raises:
its `accelerated=` keyword is not a parameter of the staged
`PingSocket.__init__`, so Python reports it with `TypeError` before
the constructor body (and its validation) can run, whatever the
configuration. -/
theorem callPingSocketInit_raises (cfg : SocketConfig) :
    callPingSocketInit cfg
      = .error (.otherError "TypeError: unexpected keyword argument accelerated") :=
  rfl

/-- The `sock.ping(...)` call made by `Ping.ping` and `Ping.iter_rtt`
always raises: its `request_id=` keyword (the first unexpected one in
argument order) is not a parameter of the staged `PingSocket.ping`,
so Python reports it with `TypeError` before the method body runs,
leaving the socket state untouched. -/
theorem callPingSocketPing_raises (sock : PingSocket) (now : ℚ)
    (send : SendResult) (aw : Nat → Option ℚ) :
    callPingSocketPing sock now send aw
      = (.error (.otherError "TypeError: unexpected keyword argument request_id"),
         sock) :=
  rfl

/-- Claim C6 (code bug): the staged series never emits an outcome, for
any count: the first iteration of `Ping.iter_rtt` raises `TypeError`
before the first yield — in `__get_socket` (which passes
`accelerated=` to a `PingSocket` constructor without that parameter)
when the family's socket is not yet cached, or otherwise at the first
`sock.ping(...)` call (whose `request_id=`/`seq=` keywords the staged
`PingSocket.ping` does not accept).  The claim — exactly `N` outcomes
in submission order for a set count, an infinite series otherwise —
matches the source's own docstring and its test
(`test_iter_rtt` asserts `len(res) == N_PROBES`), so the staged
version mix is a defect of the code, not of the claim. -/
theorem iter_rtt_raises_typeerror (self : Ping) (addr : String) (now : ℚ)
    (send : SendResult) (aw : Nat → Option ℚ) :
    self.iterRttFirstStep addr now send aw
      = .error (.otherError
          (if (self.sockets.find? (fun e => e.1 == Ping.getAfi addr)).isSome
           then "TypeError: unexpected keyword argument request_id"
           else "TypeError: unexpected keyword argument accelerated")) := by
  unfold Ping.iterRttFirstStep Ping.getSocket
  cases hfind : self.sockets.find? (fun e => e.1 == Ping.getAfi addr) with
  | some e => simp [callPingSocketPing_raises]
  | none => simp [callPingSocketInit_raises]

/-- Session ids resolved by the read loop were pending when it started. -/
theorem onReadLoop_out_mem (b : List (Nat × Nat)) :
    ∀ (s : List (Nat × ℚ)) (x : Nat),
      x ∈ (onReadLoop s b).2.map Prod.fst → x ∈ s.map Prod.fst := by
  induction b with
  | nil => intro s x hx; simp [onReadLoop] at hx
  | cons e rest ih =>
      intro s x hx
      obtain ⟨sid, rtt⟩ := e
      unfold onReadLoop at hx
      by_cases hmem : s.any (fun e => e.1 == sid) = true
      · rw [if_pos hmem] at hx
        simp only [List.map_cons, List.mem_cons] at hx
        rcases hx with hx | hx
        · subst hx
          rw [List.any_eq_true] at hmem
          obtain ⟨e, he, heq⟩ := hmem
          rw [beq_iff_eq] at heq
          exact List.mem_map.mpr ⟨e, he, heq⟩
        · have := ih (s.filter (fun e => e.1 != sid)) x hx
          rw [List.mem_map] at this ⊢
          obtain ⟨e, he, heq⟩ := this
          exact ⟨e, (List.mem_filter.mp he).1, heq⟩
      · rw [if_neg hmem] at hx
        exact ih s x hx

/-- Session ids still pending after the read loop were pending before. -/
theorem onReadLoop_state_mem (b : List (Nat × Nat)) :
    ∀ (s : List (Nat × ℚ)) (x : Nat),
      x ∈ (onReadLoop s b).1.map Prod.fst → x ∈ s.map Prod.fst := by
  induction b with
  | nil => intro s x hx; simpa [onReadLoop] using hx
  | cons e rest ih =>
      intro s x hx
      obtain ⟨sid, rtt⟩ := e
      unfold onReadLoop at hx
      by_cases hmem : s.any (fun e => e.1 == sid) = true
      · rw [if_pos hmem] at hx
        have := ih (s.filter (fun e => e.1 != sid)) x hx
        rw [List.mem_map] at this ⊢
        obtain ⟨e, he, heq⟩ := this
        exact ⟨e, (List.mem_filter.mp he).1, heq⟩
      · rw [if_neg hmem] at hx
        exact ih s x hx

/-- A session id resolved by the read loop is no longer pending after
it: the entry is removed in the same step that resolves it. -/
theorem onReadLoop_out_not_state (b : List (Nat × Nat)) :
    ∀ (s : List (Nat × ℚ)) (x : Nat),
      x ∈ (onReadLoop s b).2.map Prod.fst → x ∉ (onReadLoop s b).1.map Prod.fst := by
  induction b with
  | nil => intro s x hx; simp [onReadLoop] at hx
  | cons e rest ih =>
      intro s x hx hx'
      obtain ⟨sid, rtt⟩ := e
      unfold onReadLoop at hx hx'
      by_cases hmem : s.any (fun e => e.1 == sid) = true
      · rw [if_pos hmem] at hx hx'
        simp only [List.map_cons, List.mem_cons] at hx
        rcases hx with hx | hx
        · have := onReadLoop_state_mem rest (s.filter (fun e => e.1 != sid)) x hx'
          rw [List.mem_map] at this
          obtain ⟨e, he, heq⟩ := this
          have hne := (List.mem_filter.mp he).2
          rw [bne_iff_ne] at hne
          exact hne (heq.trans hx)
        · exact ih (s.filter (fun e => e.1 != sid)) x hx hx'
      · rw [if_neg hmem] at hx hx'
        exact ih s x hx hx'

/-- The read loop resolves each session id at most once within one
batch, even if the batch repeats the id. -/
theorem onReadLoop_out_nodup (b : List (Nat × Nat)) :
    ∀ s : List (Nat × ℚ), ((onReadLoop s b).2.map Prod.fst).Nodup := by
  induction b with
  | nil => intro s; simp [onReadLoop]
  | cons e rest ih =>
      intro s
      obtain ⟨sid, rtt⟩ := e
      unfold onReadLoop
      by_cases hmem : s.any (fun e => e.1 == sid) = true
      · rw [if_pos hmem]
        simp only [List.map_cons, List.nodup_cons]
        refine ⟨?_, ih (s.filter (fun e => e.1 != sid))⟩
        intro hx
        have := onReadLoop_out_mem rest (s.filter (fun e => e.1 != sid)) sid hx
        rw [List.mem_map] at this
        obtain ⟨e, he, heq⟩ := this
        have hne := (List.mem_filter.mp he).2
        rw [bne_iff_ne] at hne
        exact hne heq
      · rw [if_neg hmem]
        exact ih s

/-- Claim C10: each pending completion future is resolved at most once.
Across two consecutive receive batches (and within each batch, even
with duplicated ids), no session id is resolved twice: the read handler
removes the entry in the step that resolves it, so a session id
appearing again later finds no pending entry and is silently ignored —
in particular an id that was never pending yields no resolution at
all. -/
theorem resolve_at_most_once (s : List (Nat × ℚ)) (b1 b2 : List (Nat × Nat))
    (sid : Nat) (h : sid ∉ s.map Prod.fst) :
    (((onReadLoop s b1).2 ++ (onReadLoop (onReadLoop s b1).1 b2).2).map Prod.fst).Nodup
    ∧ sid ∉ (onReadLoop s b1).2.map Prod.fst := by
  constructor
  · rw [List.map_append]
    refine List.Nodup.append (onReadLoop_out_nodup b1 s)
      (onReadLoop_out_nodup b2 (onReadLoop s b1).1) ?_
    intro a ha1 ha2
    exact onReadLoop_out_not_state b1 s a ha1
      (onReadLoop_out_mem b2 (onReadLoop s b1).1 a ha2)
  · intro hx
    exact h (onReadLoop_out_mem b1 s sid hx)

/-- Witness for `resolve_at_most_once`: pending map `{1}`; first batch
repeats id 1 and mentions the unknown id 2; second batch repeats id 1
again.  Resolutions across both batches are duplicate-free and the
never-pending id 2 is never resolved. -/
theorem resolve_at_most_once_witness :
    (2 : Nat) ∉ [((1 : Nat), (0 : ℚ))].map Prod.fst
    ∧ ((((onReadLoop [(1, 0)] [(1, 5), (1, 7), (2, 9)]).2
          ++ (onReadLoop (onReadLoop [(1, 0)] [(1, 5), (1, 7), (2, 9)]).1
               [(1, 11)]).2).map Prod.fst).Nodup
        ∧ (2 : Nat) ∉ (onReadLoop [(1, 0)] [(1, 5), (1, 7), (2, 9)]).2.map Prod.fst) :=
  ⟨by decide,
   resolve_at_most_once [(1, 0)] [(1, 5), (1, 7), (2, 9)] [(1, 11)] 2 (by decide)⟩

/-- Claim C1 (code bug): the staged facade probe never returns an
outcome: every `Ping.ping` call raises `TypeError` — at the lazy
socket construction (ping.py passes `accelerated=` to a `PingSocket`
constructor without that parameter) when the family's socket is not
yet cached, or otherwise at the `sock.ping(...)` call (whose
`request_id=`/`seq=` keywords the staged `PingSocket.ping` does not
accept).  The claim — RTT in seconds on success, `None` on failure or
timeout, dispatched through the lazily created per-family socket with
the shared configuration — matches the source's own docstring
("Returns: Round-trip time in seconds ... None - if failed or timed
out") and its test (`test_ping` asserts a positive float RTT), so the
staged version mix is a defect of the code, not of the claim. -/
theorem probe_raises_typeerror (self : Ping) (addr : String) (now : ℚ)
    (send : SendResult) (aw : Nat → Option ℚ) :
    (self.ping addr now send aw).1
      = .error (.otherError
          (if (self.sockets.find? (fun e => e.1 == Ping.getAfi addr)).isSome
           then "TypeError: unexpected keyword argument request_id"
           else "TypeError: unexpected keyword argument accelerated")) := by
  unfold Ping.ping Ping.getSocket
  cases hfind : self.sockets.find? (fun e => e.1 == Ping.getAfi addr) with
  | some e => simp [callPingSocketPing_raises]
  | none => simp [callPingSocketInit_raises]

end GufoPing
